import Mathlib

/-!
Verification of the foundation-calculator analysis engine.

The static-stability calculator (`static_analysis.py`) works on Python
floats; its arithmetic is purely rational, so it is embedded over `ℚ`,
with `WithTop ℚ` modelling the IEEE value `float('inf')` that the code
uses as a sentinel for degenerate ratios, and Python booleans embedded
as propositions.  The dynamic-response calculator
(`dynamic_analysis.py`) uses `sqrt` and `π`, so it is embedded over
`ℝ`, with `EReal` modelling the infinite frequency ratio.  The
parameter persistence helpers (`utils.py`) are embedded with an
explicit file-system map and a JSON printer/parser for the flat
records the code serialises.
-/

/-- Embedding of the `StaticAnalysis` class of
`foundation_calculator/core/static_analysis.py`: the constructor
arguments, stored as-is. -/
structure StaticAnalysis where
  length : ℚ
  width : ℚ
  height : ℚ
  buried_depth : ℚ
  concrete_strength : ℚ
  elastic_modulus : ℚ
  soil_bearing_capacity : ℚ
  static_load : ℚ
  load_eccentricity : ℚ × ℚ
  friction_coefficient : ℚ

/-- Embedding of `StaticAnalysis.__init__` (which stores every argument
unchanged). -/
def StaticAnalysis.init (length width height buried_depth
    concrete_strength elastic_modulus soil_bearing_capacity
    static_load : ℚ) (load_eccentricity : ℚ × ℚ)
    (friction_coefficient : ℚ) : StaticAnalysis :=
  { length := length, width := width, height := height,
    buried_depth := buried_depth, concrete_strength := concrete_strength,
    elastic_modulus := elastic_modulus,
    soil_bearing_capacity := soil_bearing_capacity,
    static_load := static_load, load_eccentricity := load_eccentricity,
    friction_coefficient := friction_coefficient }

/-- Concrete density constant, 25 kN per cubic metre (line 45 of
`static_analysis.py`). -/
def concrete_density : ℚ := 25

/-- Soil density constant, 18 kN per cubic metre (line 46 of
`static_analysis.py`). -/
def soil_density : ℚ := 18

/-- Embedding of `StaticAnalysis.calculate_self_weight` (lines 49-61). -/
def StaticAnalysis.calculate_self_weight (s : StaticAnalysis) : ℚ :=
  let foundation_volume := s.length * s.width * s.height
  let foundation_weight := foundation_volume * concrete_density
  let soil_weight :=
    if s.buried_depth > s.height then
      s.length * s.width * (s.buried_depth - s.height) * soil_density
    else 0
  foundation_weight + soil_weight

/-- The `self_weight` attribute computed by the constructor (line 47). -/
def StaticAnalysis.self_weight (s : StaticAnalysis) : ℚ :=
  s.calculate_self_weight

/-- Embedding of `StaticAnalysis.sliding_stability` (lines 63-82).
`⊤ : WithTop ℚ` models the `float('inf')` returned when the horizontal
load is not positive; the Python boolean `is_safe` is embedded as the
proposition it tests. -/
def StaticAnalysis.sliding_stability (s : StaticAnalysis) :
    WithTop ℚ × Prop :=
  let horizontal_load := s.static_load * 0.1
  let anti_sliding_force :=
    (s.self_weight + s.static_load) * s.friction_coefficient
  let safety_factor : WithTop ℚ :=
    if horizontal_load > 0 then
      ((anti_sliding_force / horizontal_load : ℚ) : WithTop ℚ)
    else ⊤
  (safety_factor, ((1.3 : ℚ) : WithTop ℚ) ≤ safety_factor)

/-- The overturning moment computed inside
`StaticAnalysis.overturning_stability` (lines 93-94), literally
`horizontal_load * (height + buried_depth - height)`. -/
def StaticAnalysis.overturning_moment (s : StaticAnalysis) : ℚ :=
  let horizontal_load := s.static_load * 0.1
  horizontal_load * (s.height + s.buried_depth - s.height)

/-- The stabilizing moment computed inside
`StaticAnalysis.overturning_stability` (lines 96-103): the eccentricity
term is added only when the eccentricity lies strictly inside the
half-length. -/
def StaticAnalysis.stabilizing_moment (s : StaticAnalysis) : ℚ :=
  let base := s.self_weight * (s.length / 2)
  let ex := s.load_eccentricity.1
  if |ex| < s.length / 2 then
    base + s.static_load * (s.length / 2 - |ex|)
  else base

/-- Embedding of `StaticAnalysis.overturning_stability` (lines 84-111). -/
def StaticAnalysis.overturning_stability (s : StaticAnalysis) :
    WithTop ℚ × Prop :=
  let safety_factor : WithTop ℚ :=
    if s.overturning_moment > 0 then
      ((s.stabilizing_moment / s.overturning_moment : ℚ) : WithTop ℚ)
    else ⊤
  (safety_factor, ((1.5 : ℚ) : WithTop ℚ) ≤ safety_factor)

/-- Embedding of `StaticAnalysis.bearing_capacity` (lines 113-138).
Returns (actual pressure, allowable pressure, is_safe); `⊤` models the
`float('inf')` pressure reported for a non-positive effective area. -/
def StaticAnalysis.bearing_capacity (s : StaticAnalysis) :
    WithTop ℚ × ℚ × Prop :=
  let total_load := s.self_weight + s.static_load
  let ex := s.load_eccentricity.1
  let ey := s.load_eccentricity.2
  let effective_length := s.length - 2 * |ex|
  let effective_width := s.width - 2 * |ey|
  let effective_area := effective_length * effective_width
  let actual_pressure : WithTop ℚ :=
    if effective_area > 0 then
      ((total_load / effective_area : ℚ) : WithTop ℚ)
    else ⊤
  (actual_pressure, s.soil_bearing_capacity,
    actual_pressure ≤ ((s.soil_bearing_capacity : ℚ) : WithTop ℚ))

/-- Mirror of the result dictionary of `StaticAnalysis.run_analysis`
(lines 140-172). -/
structure StaticResults where
  self_weight : ℚ
  total_weight : ℚ
  sliding_factor : WithTop ℚ
  sliding_safe : Prop
  overturning_factor : WithTop ℚ
  overturning_safe : Prop
  actual_pressure : WithTop ℚ
  allowable_pressure : ℚ
  bearing_safe : Prop
  overall_safety : Prop

/-- Embedding of `StaticAnalysis.run_analysis` (lines 140-172);
`overall_safety` is the conjunction of the three checks. -/
def StaticAnalysis.run_analysis (s : StaticAnalysis) : StaticResults :=
  let sliding := s.sliding_stability
  let overturning := s.overturning_stability
  let bearing := s.bearing_capacity
  { self_weight := s.self_weight,
    total_weight := s.self_weight + s.static_load,
    sliding_factor := sliding.1,
    sliding_safe := sliding.2,
    overturning_factor := overturning.1,
    overturning_safe := overturning.2,
    actual_pressure := bearing.1,
    allowable_pressure := bearing.2.1,
    bearing_safe := bearing.2.2,
    overall_safety := sliding.2 ∧ overturning.2 ∧ bearing.2.2 }

/-- The worked example of the spec: length 3, width 2, height 1, buried
depth 0.5, static load 500, friction coefficient 0.45 (material and
soil parameters taken from the default parameter set). -/
def exampleStatic : StaticAnalysis :=
  StaticAnalysis.init 3 2 1 0.5 30 30000 200 500 (0, 0) 0.45

/-- Embedding of the `DynamicAnalysis` class of
`foundation_calculator/core/dynamic_analysis.py`: the stored
attributes.  Note that the constructor stores `elastic_modulus * 1000`
(conversion from MPa to kPa, line 40), which `DynamicAnalysis.init`
reproduces. -/
structure DynamicAnalysis where
  length : ℝ
  width : ℝ
  height : ℝ
  buried_depth : ℝ
  concrete_strength : ℝ
  elastic_modulus : ℝ
  soil_coefficient : ℝ
  dynamic_load : ℝ
  frequency : ℝ
  total_mass : ℝ
  damping_ratio : ℝ

/-- Embedding of `DynamicAnalysis.__init__` (lines 16-49): all
arguments stored unchanged except the elastic modulus, which is
multiplied by 1000. -/
noncomputable def DynamicAnalysis.init (length width height buried_depth
    concrete_strength elastic_modulus soil_coefficient dynamic_load
    frequency total_mass damping_ratio : ℝ) : DynamicAnalysis :=
  { length := length, width := width, height := height,
    buried_depth := buried_depth, concrete_strength := concrete_strength,
    elastic_modulus := elastic_modulus * 1000,
    soil_coefficient := soil_coefficient, dynamic_load := dynamic_load,
    frequency := frequency, total_mass := total_mass,
    damping_ratio := damping_ratio }

/-- Embedding of `DynamicAnalysis.calculate_spring_constant`
(lines 51-65): `k = soil_coefficient * (length * width)`. -/
noncomputable def DynamicAnalysis.calculate_spring_constant
    (d : DynamicAnalysis) : ℝ :=
  let base_area := d.length * d.width
  d.soil_coefficient * base_area

/-- The `spring_constant` attribute computed by the constructor
(line 48). -/
noncomputable def DynamicAnalysis.spring_constant
    (d : DynamicAnalysis) : ℝ :=
  d.calculate_spring_constant

/-- Embedding of `DynamicAnalysis.calculate_natural_frequency`
(lines 67-79): `sqrt (k / m) / (2 π)`. -/
noncomputable def DynamicAnalysis.calculate_natural_frequency
    (d : DynamicAnalysis) : ℝ :=
  Real.sqrt (d.spring_constant / d.total_mass) / (2 * Real.pi)

/-- The `natural_frequency` attribute computed by the constructor
(line 49). -/
noncomputable def DynamicAnalysis.natural_frequency
    (d : DynamicAnalysis) : ℝ :=
  d.calculate_natural_frequency

/-- Embedding of `DynamicAnalysis.calculate_frequency_ratio`
(lines 81-88); `⊤ : EReal` models the `float('inf')` returned when the
natural frequency is not positive. -/
noncomputable def DynamicAnalysis.calculate_frequency_ratio
    (d : DynamicAnalysis) : EReal :=
  if d.natural_frequency > 0 then
    ((d.frequency / d.natural_frequency : ℝ) : EReal)
  else ⊤

/-- Embedding of `DynamicAnalysis.calculate_transmissibility`
(lines 90-109).  In the branch where the natural frequency is not
positive the Python code evaluates the formula at an infinite
frequency ratio, producing a non-finite float; that degenerate branch
is modelled by the fixed value 1 (no claim depends on it). -/
noncomputable def DynamicAnalysis.calculate_transmissibility
    (d : DynamicAnalysis) : ℝ :=
  if d.natural_frequency > 0 then
    let r := d.frequency / d.natural_frequency
    let zeta := d.damping_ratio
    if r = 0 then 1
    else Real.sqrt (1 + (2 * zeta * r) ^ 2) /
      Real.sqrt ((1 - r ^ 2) ^ 2 + (2 * zeta * r) ^ 2)
  else 1

/-- Embedding of `DynamicAnalysis.calculate_amplitude` (lines 111-134):
amplitude in mm is `(F0 / k) * H(r) * 1000` with force transfer
function `H(r) = 1 / sqrt((1-r²)² + (2ζr)²)` and `H = 1` at `r = 0`.
In the branch where the natural frequency is not positive the Python
code evaluates the formula at an infinite frequency ratio, whose
float limit is 0; that degenerate branch is modelled by 0. -/
noncomputable def DynamicAnalysis.calculate_amplitude
    (d : DynamicAnalysis) : ℝ :=
  if d.natural_frequency > 0 then
    let r := d.frequency / d.natural_frequency
    let zeta := d.damping_ratio
    let force_tf :=
      if r = 0 then 1
      else 1 / Real.sqrt ((1 - r ^ 2) ^ 2 + (2 * zeta * r) ^ 2)
    let static_deflection := d.dynamic_load / d.spring_constant
    static_deflection * force_tf * 1000
  else 0

/-- Embedding of `DynamicAnalysis.is_resonance_risk` (lines 136-148):
risk holds exactly when the frequency ratio lies in the band
`[0.8, 1.2]`; the Python boolean is embedded as the proposition it
tests, and the pair mirrors the returned `(is_risk, r)` tuple. -/
noncomputable def DynamicAnalysis.is_resonance_risk
    (d : DynamicAnalysis) : Prop × EReal :=
  let r := d.calculate_frequency_ratio
  (((0.8 : ℝ) : EReal) ≤ r ∧ r ≤ ((1.2 : ℝ) : EReal), r)

/-- Embedding of `numpy.linspace(a, b, num)`: `num` evenly spaced
points from `a` to `b` inclusive. -/
noncomputable def linspace (a b : ℝ) (num : ℕ) : List ℝ :=
  (List.range num).map (fun i => a + (b - a) * i / (num - 1 : ℕ))

/-- The frequency domain computed at the start of
`DynamicAnalysis.calculate_response_curve` (lines 160-169): the given
range, or by default 0.1 Hz up to three times the natural frequency
(0.1 + 50 Hz when that end would not exceed the start), sampled at
1000 points. -/
noncomputable def DynamicAnalysis.response_domain (d : DynamicAnalysis)
    (freq_range : Option (ℝ × ℝ)) : List ℝ :=
  match freq_range with
  | none =>
    let start_freq : ℝ := 0.1
    let end_freq := d.natural_frequency * 3
    linspace start_freq
      (if end_freq ≤ start_freq then start_freq + 50 else end_freq) 1000
  | some (s, e) => linspace s e 1000

/-- The sweep loop of `DynamicAnalysis.calculate_response_curve`
(lines 176-178), embedded with explicit state passing: each step
overwrites the object's `frequency` attribute with the sampled
frequency and computes the amplitude of the mutated object.  Returns
the object state after the loop together with the amplitude list. -/
noncomputable def sweepLoop :
    DynamicAnalysis → List ℝ → DynamicAnalysis × List ℝ
  | d, [] => (d, [])
  | d, f :: rest =>
    let d1 := { d with frequency := f }
    let res := sweepLoop d1 rest
    (res.1, d1.calculate_amplitude :: res.2)

/-- The successive object states produced by the sweep loop of
`DynamicAnalysis.calculate_response_curve`: the state after each
assignment `self.frequency = freq` (line 177). -/
noncomputable def sweepStates :
    DynamicAnalysis → List ℝ → List DynamicAnalysis
  | _, [] => []
  | d, f :: rest =>
    let d1 := { d with frequency := f }
    d1 :: sweepStates d1 rest

/-- Embedding of `DynamicAnalysis.calculate_response_curve`
(lines 150-183): computes the frequency domain, runs the sweep loop,
restores the original frequency (line 181), and returns the final
object state together with the (frequencies, amplitudes) pair. -/
noncomputable def DynamicAnalysis.calculate_response_curve
    (d : DynamicAnalysis) (freq_range : Option (ℝ × ℝ)) :
    DynamicAnalysis × List ℝ × List ℝ :=
  let frequencies := d.response_domain freq_range
  let res := sweepLoop d frequencies
  ({ res.1 with frequency := d.frequency }, frequencies, res.2)

/-- The intermediate object states of one call to
`DynamicAnalysis.calculate_response_curve`: the state after each of
the 1000 transient assignments to `self.frequency` during the sweep. -/
noncomputable def DynamicAnalysis.response_curve_states
    (d : DynamicAnalysis) (freq_range : Option (ℝ × ℝ)) :
    List DynamicAnalysis :=
  sweepStates d (d.response_domain freq_range)

/-- Mirror of the result dictionary of `DynamicAnalysis.run_analysis`
(lines 185-211). -/
structure DynamicResults where
  natural_frequency : ℝ
  frequency_ratio : EReal
  transmissibility : ℝ
  amplitude : ℝ
  allowable_amplitude : ℝ
  is_safe : Prop
  resonance_risk : Prop

/-- Embedding of `DynamicAnalysis.run_analysis` (lines 185-211); the
allowable amplitude is the fixed value 0.15 mm (line 198). -/
noncomputable def DynamicAnalysis.run_analysis
    (d : DynamicAnalysis) : DynamicResults :=
  { natural_frequency := d.natural_frequency,
    frequency_ratio := d.calculate_frequency_ratio,
    transmissibility := d.calculate_transmissibility,
    amplitude := d.calculate_amplitude,
    allowable_amplitude := 0.15,
    is_safe := d.calculate_amplitude ≤ 0.15,
    resonance_risk := d.is_resonance_risk.1 }

/-- The worked example of the spec: soil coefficient 80000, length 3,
width 2, total mass 40000 kg (geometry, material, load and damping
values from the default parameter set). -/
noncomputable def exampleDynamic : DynamicAnalysis :=
  DynamicAnalysis.init 3 2 1 0.5 30 30000 80000 50 10 40000 0.05

/-- A value of a flat parameter record, as serialised by `utils.py`:
a string, a Python int, or a Python float written as a finite decimal.
`pfloat m e` is the decimal `m / 10^e` printed with `e` fractional
digits (so `pfloat 30 1` is the literal `3.0`). -/
inductive PValue where
  | pstr : String → PValue
  | pint : Int → PValue
  | pfloat : Int → ℕ → PValue
deriving DecidableEq

/-- A flat parameter record: an ordered list of key/value pairs,
mirroring the Python dict that `save_parameters` serialises. -/
abbrev Params := List (String × PValue)

/-- The decimal digit character for `n < 10`. -/
def digitChar (n : ℕ) : Char := Char.ofNat (48 + n)

/-- Decimal digits of a natural number (fuel-based helper). -/
def natDigitsAux : ℕ → ℕ → List Char
  | 0, _ => []
  | fuel + 1, n =>
    if n < 10 then [digitChar n]
    else natDigitsAux fuel (n / 10) ++ [digitChar (n % 10)]

/-- Decimal digits of a natural number. -/
def natDigits (n : ℕ) : List Char := natDigitsAux (n + 1) n

/-- Decimal rendering of an integer. -/
def intChars (i : Int) : List Char :=
  if i < 0 then '-' :: natDigits i.natAbs else natDigits i.natAbs

/-- Left-pad a digit string with zeros to length `k`. -/
def padZeros (k : ℕ) (ds : List Char) : List Char :=
  List.replicate (k - ds.length) '0' ++ ds

/-- Rendering of the decimal float `m / 10^e` the way Python `repr`
prints such a float: integer part, a point, `e` fractional digits. -/
def floatChars (m : Int) (e : ℕ) : List Char :=
  let a := m.natAbs
  (if m < 0 then ['-'] else []) ++ natDigits (a / 10 ^ e) ++
    '.' :: padZeros e (natDigits (a % 10 ^ e))

/-- JSON rendering of one record value (strings are written raw, as
`json.dump` with `ensure_ascii=False` does for text free of escapes). -/
def valueChars : PValue → List Char
  | .pstr s => '"' :: s.toList ++ ['"']
  | .pint n => intChars n
  | .pfloat m e => floatChars m e

/-- Join character chunks with a separator. -/
def joinSep (sep : List Char) : List (List Char) → List Char
  | [] => []
  | [x] => x
  | x :: xs => x ++ sep ++ joinSep sep xs

/-- The text `json.dump(params, f, ensure_ascii=False, indent=4)`
writes for a flat record (as in `save_parameters`, line 31 of
`utils.py`): one four-space-indented `"key": value` member per line. -/
def jsonDumpChars (ps : Params) : List Char :=
  match ps with
  | [] => ['\x7b', '\x7d']
  | _ =>
    let members := ps.map (fun kv =>
      [' ', ' ', ' ', ' ', '"'] ++ kv.1.toList ++ ['"', ':', ' '] ++
        valueChars kv.2)
    '\x7b' :: '\n' :: (joinSep [',', '\n'] members ++ ['\n', '\x7d'])

/-- The serialised parameter file content. -/
def jsonDump (ps : Params) : String := String.mk (jsonDumpChars ps)

/-- Whitespace recognised by the JSON reader. -/
def isWsChar (c : Char) : Bool :=
  c = ' ' || c = '\n' || c = '\t' || c = '\r'

/-- Drop leading whitespace. -/
def skipWs : List Char → List Char
  | [] => []
  | c :: r => if isWsChar c then skipWs r else c :: r

/-- Read string-body characters up to the closing quote. -/
def spanToQuote : List Char → Option (List Char × List Char)
  | [] => none
  | c :: r =>
    if c = '"' then some ([], r)
    else
      match spanToQuote r with
      | some (s, rest) => some (c :: s, rest)
      | none => none

/-- Split off a maximal run of decimal digits. -/
def takeDigits : List Char → List Char × List Char
  | [] => ([], [])
  | c :: r =>
    if c.isDigit then
      let p := takeDigits r
      (c :: p.1, p.2)
    else ([], c :: r)

/-- Numeric value of a digit string. -/
def digitsVal (ds : List Char) : ℕ :=
  ds.foldl (fun a c => a * 10 + (c.toNat - 48)) 0

/-- Read a JSON number: an optional minus sign, digits, and an
optional fractional part; integers load as Python ints, decimals as
floats, exactly as `json.load` distinguishes them. -/
def parseNumber (cs : List Char) : Option (PValue × List Char) :=
  let signed : Bool × List Char :=
    match cs with
    | '-' :: r => (true, r)
    | _ => (false, cs)
  match takeDigits signed.2 with
  | ([], _) => none
  | (ds, rest) =>
    match rest with
    | '.' :: r2 =>
      (match takeDigits r2 with
      | ([], _) => none
      | (fs, rest2) =>
        let m : Int := (digitsVal ds * 10 ^ fs.length + digitsVal fs : ℕ)
        some (.pfloat (if signed.1 then -m else m) fs.length, rest2))
    | _ =>
      let n : Int := (digitsVal ds : ℕ)
      some (.pint (if signed.1 then -n else n), rest)

/-- Read one JSON value of a flat record: a string or a number. -/
def parseValue (cs : List Char) : Option (PValue × List Char) :=
  match cs with
  | '"' :: r =>
    (match spanToQuote r with
    | some (s, rest) => some (.pstr (String.mk s), rest)
    | none => none)
  | _ => parseNumber cs

/-- Read the members of a JSON object: `"key": value` pairs separated
by commas, ending at the closing brace. -/
def parseMembers : ℕ → List Char → Option (Params × List Char)
  | 0, _ => none
  | fuel + 1, cs =>
    match skipWs cs with
    | '"' :: r =>
      (match spanToQuote r with
      | some (key, cs2) =>
        (match skipWs cs2 with
        | ':' :: cs3 =>
          (match parseValue (skipWs cs3) with
          | some (v, cs4) =>
            (match skipWs cs4 with
            | ',' :: cs5 =>
              (match parseMembers fuel cs5 with
              | some (ps, cs6) => some ((String.mk key, v) :: ps, cs6)
              | none => none)
            | '\x7d' :: cs5 => some ([(String.mk key, v)], cs5)
            | _ => none)
          | none => none)
        | _ => none)
      | none => none)
    | _ => none

/-- Embedding of `json.load` for the flat records `load_parameters`
reads: parse a braced object of string/number members; any malformed
input yields `none` (the exception branch of `load_parameters`). -/
def jsonParse (s : String) : Option Params :=
  match skipWs s.toList with
  | '\x7b' :: r =>
    (match skipWs r with
    | '\x7d' :: r2 => if skipWs r2 = [] then some [] else none
    | _ =>
      (match parseMembers (s.toList.length + 1) r with
      | some (ps, rem) => if skipWs rem = [] then some ps else none
      | none => none))
  | _ => none

/-- The file system as a map from file names to file contents; a fresh
write shadows an earlier one. -/
abbrev FileSystem := List (String × String)

/-- Embedding of `save_parameters` (`utils.py`, lines 14-35): appends
the `.json` extension when missing and writes the serialised record,
returning the success flag. -/
def save_parameters (params : Params) (filename : String)
    (fs : FileSystem) : Bool × FileSystem :=
  let fn :=
    if filename.toList.drop (filename.toList.length - 5) = ".json".toList
    then filename
    else filename ++ ".json"
  (true, (fn, jsonDump params) :: fs)

/-- Embedding of `load_parameters` (`utils.py`, lines 38-54): reads the
named file and parses it, `none` on any failure. -/
def load_parameters (filename : String) (fs : FileSystem) :
    Option Params :=
  match fs.lookup filename with
  | some content => jsonParse content
  | none => none

/-- Embedding of `get_default_parameters` (`utils.py`, lines 137-172):
the 19-field reference default record.  The `date` field is
`datetime.now().strftime("%Y-%m-%d")`; the current date is passed in
as the parameter `today`. -/
def get_default_parameters (today : String) : Params :=
  [("name", .pstr ("新计算")),
   ("date", .pstr today),
   ("description", .pstr ("大块式设备基础计算")),
   ("length", .pfloat 30 1),
   ("width", .pfloat 20 1),
   ("height", .pfloat 10 1),
   ("buried_depth", .pfloat 5 1),
   ("concrete_strength", .pint 30),
   ("elastic_modulus", .pint 30000),
   ("soil_bearing_capacity", .pint 200),
   ("soil_coefficient", .pint 80000),
   ("static_load", .pint 500),
   ("dynamic_load", .pint 50),
   ("frequency", .pint 10),
   ("load_eccentricity_x", .pint 0),
   ("load_eccentricity_y", .pint 0),
   ("friction_coefficient", .pfloat 45 2),
   ("damping_ratio", .pfloat 5 2),
   ("equipment_mass", .pint 20000)]

theorem sweepLoop_update_fst (fs : List ℝ) (d : DynamicAnalysis) (x : ℝ) :
    ({ (sweepLoop d fs).1 with frequency := x } : DynamicAnalysis) =
      { d with frequency := x } := by
  induction fs generalizing d with
  | nil => rfl
  | cons f rest ih => simpa only [sweepLoop] using ih { d with frequency := f }

theorem sweepLoop_amplitudes (fs : List ℝ) (d : DynamicAnalysis) :
    (sweepLoop d fs).2 =
      fs.map (fun f =>
        DynamicAnalysis.calculate_amplitude { d with frequency := f }) := by
  induction fs generalizing d with
  | nil => rfl
  | cons f rest ih =>
    simp only [sweepLoop, List.map_cons]
    rw [ih]

theorem response_curve_fst (d : DynamicAnalysis)
    (freq_range : Option (ℝ × ℝ)) :
    (d.calculate_response_curve freq_range).1 = d := by
  show ({ (sweepLoop d (d.response_domain freq_range)).1 with
    frequency := d.frequency } : DynamicAnalysis) = d
  rw [sweepLoop_update_fst]

theorem response_curve_snd (d : DynamicAnalysis)
    (freq_range : Option (ℝ × ℝ)) :
    (d.calculate_response_curve freq_range).2 =
      (d.response_domain freq_range,
        (d.response_domain freq_range).map (fun f =>
          DynamicAnalysis.calculate_amplitude { d with frequency := f })) := by
  show ((d.response_domain freq_range,
    (sweepLoop d (d.response_domain freq_range)).2) : List ℝ × List ℝ) = _
  rw [sweepLoop_amplitudes]

/-- C1: for every StaticAnalysis instance with positive length, width
and height and non-negative buried depth, `calculate_self_weight`
returns exactly `L*W*H*25` when the buried depth is at most the
height, and exactly `L*W*H*25 + L*W*(D-H)*18` when the buried depth
exceeds the height. -/
theorem self_weight_spec (L W H D cs em cap load : ℚ) (ecc : ℚ × ℚ)
    (mu : ℚ) (_hL : 0 < L) (_hW : 0 < W) (_hH : 0 < H) (_hD : 0 ≤ D) :
    (D ≤ H →
      (StaticAnalysis.init L W H D cs em cap load ecc mu).self_weight =
        L * W * H * 25) ∧
    (H < D →
      (StaticAnalysis.init L W H D cs em cap load ecc mu).self_weight =
        L * W * H * 25 + L * W * (D - H) * 18) := by
  constructor
  · intro h
    simp only [StaticAnalysis.init, StaticAnalysis.self_weight,
      StaticAnalysis.calculate_self_weight, concrete_density, soil_density]
    rw [if_neg (not_lt.mpr h)]
    ring
  · intro h
    simp only [StaticAnalysis.init, StaticAnalysis.self_weight,
      StaticAnalysis.calculate_self_weight, concrete_density, soil_density]
    rw [if_pos h]

/-- Witness for C1: both branches evaluated at concrete inputs (the
spec example with buried depth 0.5 and a variant with buried depth 2
exceeding the height 1). -/
theorem self_weight_spec_witness :
    (StaticAnalysis.init 3 2 1 0.5 30 30000 200 500 (0, 0) 0.45).self_weight
        = 150 ∧
    (StaticAnalysis.init 3 2 1 2 30 30000 200 500 (0, 0) 0.45).self_weight
        = 258 := by
  constructor
  · have h := self_weight_spec 3 2 1 0.5 30 30000 200 500 (0, 0) 0.45
      (by norm_num) (by norm_num) (by norm_num) (by norm_num)
    rw [h.1 (by norm_num)]
    norm_num
  · have h := self_weight_spec 3 2 1 2 30 30000 200 500 (0, 0) 0.45
      (by norm_num) (by norm_num) (by norm_num) (by norm_num)
    rw [h.2 (by norm_num)]
    norm_num

/-- C2: for every StaticAnalysis instance, `sliding_stability` takes
the horizontal load to be a tenth of the static load, returns the
safety factor `mu * (self_weight + static_load) / (0.1 * static_load)`
when that horizontal load is positive and `⊤` (the float infinity)
when it is zero, and is safe exactly when the factor is at least 1.3;
on the spec example the self-weight is 150 kN, the horizontal load is
50 kN, the anti-sliding force is 292.5 kN, the factor is 5.85, and the
check passes. -/
theorem sliding_stability_spec (s : StaticAnalysis) :
    (0 < s.static_load * 0.1 →
      s.sliding_stability.1 =
        ((s.friction_coefficient * (s.self_weight + s.static_load) /
          (0.1 * s.static_load) : ℚ) : WithTop ℚ)) ∧
    (s.static_load * 0.1 = 0 → s.sliding_stability.1 = ⊤) ∧
    (s.sliding_stability.2 ↔
      ((1.3 : ℚ) : WithTop ℚ) ≤ s.sliding_stability.1) ∧
    (exampleStatic.self_weight = 150 ∧
      exampleStatic.static_load * 0.1 = 50 ∧
      (exampleStatic.self_weight + exampleStatic.static_load) *
        exampleStatic.friction_coefficient = 292.5 ∧
      exampleStatic.sliding_stability.1 = ((5.85 : ℚ) : WithTop ℚ) ∧
      exampleStatic.sliding_stability.2) := by
  refine ⟨?_, ?_, Iff.rfl, ?_, ?_, ?_, ?_, ?_⟩
  · intro h
    simp only [StaticAnalysis.sliding_stability]
    rw [if_pos h]
    exact WithTop.coe_eq_coe.mpr (by ring)
  · intro h
    simp only [StaticAnalysis.sliding_stability]
    rw [if_neg (by rw [h]; exact lt_irrefl 0)]
  · norm_num [exampleStatic, StaticAnalysis.init, StaticAnalysis.self_weight,
      StaticAnalysis.calculate_self_weight, concrete_density, soil_density]
  · norm_num [exampleStatic, StaticAnalysis.init]
  · norm_num [exampleStatic, StaticAnalysis.init, StaticAnalysis.self_weight,
      StaticAnalysis.calculate_self_weight, concrete_density, soil_density]
  · norm_num [exampleStatic, StaticAnalysis.init, StaticAnalysis.self_weight,
      StaticAnalysis.calculate_self_weight, StaticAnalysis.sliding_stability,
      concrete_density, soil_density]
  · simp only [exampleStatic, StaticAnalysis.init, StaticAnalysis.self_weight,
      StaticAnalysis.calculate_self_weight, StaticAnalysis.sliding_stability,
      concrete_density, soil_density]
    rw [if_pos (by norm_num)]
    exact WithTop.coe_le_coe.mpr (by norm_num)

/-- Witness for C2: the general positive-horizontal-load branch
evaluated on the spec example, together with the example facts. -/
theorem sliding_stability_spec_witness :
    exampleStatic.sliding_stability.1 =
      ((exampleStatic.friction_coefficient *
        (exampleStatic.self_weight + exampleStatic.static_load) /
        (0.1 * exampleStatic.static_load) : ℚ) : WithTop ℚ) ∧
    exampleStatic.sliding_stability.1 = ((5.85 : ℚ) : WithTop ℚ) ∧
    exampleStatic.sliding_stability.2 := by
  refine ⟨(sliding_stability_spec exampleStatic).1
      (by norm_num [exampleStatic, StaticAnalysis.init]),
    (sliding_stability_spec exampleStatic).2.2.2.2.2.2.1,
    (sliding_stability_spec exampleStatic).2.2.2.2.2.2.2⟩

/-- C3: for every StaticAnalysis instance, the overturning moment is
`(0.1 * static_load) * (height + buried_depth - height)`, which equals
`0.1 * static_load * buried_depth` (the moment arm reduces to the
buried depth alone); the stabilizing moment is
`self_weight * (length/2)` plus `static_load * (length/2 - |ex|)`
exactly when `|ex| < length/2` and has no load term otherwise; the
safety factor is the quotient of the moments, `⊤` when the overturning
moment is zero, and the check passes exactly when the factor is at
least 1.5. -/
theorem overturning_stability_spec (s : StaticAnalysis) :
    (s.overturning_moment =
      s.static_load * 0.1 * (s.height + s.buried_depth - s.height) ∧
      s.overturning_moment = 0.1 * s.static_load * s.buried_depth) ∧
    (|s.load_eccentricity.1| < s.length / 2 →
      s.stabilizing_moment = s.self_weight * (s.length / 2) +
        s.static_load * (s.length / 2 - |s.load_eccentricity.1|)) ∧
    (s.length / 2 ≤ |s.load_eccentricity.1| →
      s.stabilizing_moment = s.self_weight * (s.length / 2)) ∧
    (0 < s.overturning_moment →
      s.overturning_stability.1 =
        ((s.stabilizing_moment / s.overturning_moment : ℚ) : WithTop ℚ)) ∧
    (s.overturning_moment = 0 → s.overturning_stability.1 = ⊤) ∧
    (s.overturning_stability.2 ↔
      ((1.5 : ℚ) : WithTop ℚ) ≤ s.overturning_stability.1) := by
  refine ⟨⟨rfl, by simp only [StaticAnalysis.overturning_moment]; ring⟩,
    ?_, ?_, ?_, ?_, Iff.rfl⟩
  · intro h
    simp only [StaticAnalysis.stabilizing_moment]
    rw [if_pos h]
  · intro h
    simp only [StaticAnalysis.stabilizing_moment]
    rw [if_neg (not_lt.mpr h)]
  · intro h
    simp only [StaticAnalysis.overturning_stability]
    rw [if_pos h]
  · intro h
    simp only [StaticAnalysis.overturning_stability]
    rw [if_neg (by rw [h]; exact lt_irrefl 0)]

/-- Witness for C3: on the spec example the overturning moment is
25 kNm, the stabilizing moment is 975 kNm, the factor is 39, and the
check passes. -/
theorem overturning_stability_spec_witness :
    exampleStatic.overturning_moment = 25 ∧
    exampleStatic.stabilizing_moment = 975 ∧
    exampleStatic.overturning_stability.1 = ((39 : ℚ) : WithTop ℚ) ∧
    exampleStatic.overturning_stability.2 := by
  have hom : exampleStatic.overturning_moment = 25 := by
    rw [(overturning_stability_spec exampleStatic).1.2]
    norm_num [exampleStatic, StaticAnalysis.init]
  have hstab : exampleStatic.stabilizing_moment = 975 := by
    rw [(overturning_stability_spec exampleStatic).2.1
      (by norm_num [exampleStatic, StaticAnalysis.init])]
    norm_num [exampleStatic, StaticAnalysis.init, StaticAnalysis.self_weight,
      StaticAnalysis.calculate_self_weight, concrete_density, soil_density]
  have hfac : exampleStatic.overturning_stability.1 =
      ((39 : ℚ) : WithTop ℚ) := by
    rw [(overturning_stability_spec exampleStatic).2.2.2.1
      (by rw [hom]; norm_num), hom, hstab]
    norm_num
  refine ⟨hom, hstab, hfac, ?_⟩
  rw [(overturning_stability_spec exampleStatic).2.2.2.2.2, hfac]
  exact WithTop.coe_le_coe.mpr (by norm_num)

/-- C4: for every StaticAnalysis instance, the bearing check uses the
effective area `(length - 2|ex|) * (width - 2|ey|)`; when it is
positive the actual pressure is the total load over that area and the
check passes exactly when the pressure is at most the soil bearing
capacity; when it is not positive the pressure is `⊤` (the float
infinity) and the check fails regardless of the capacity. -/
theorem bearing_capacity_spec (s : StaticAnalysis) :
    (0 < (s.length - 2 * |s.load_eccentricity.1|) *
        (s.width - 2 * |s.load_eccentricity.2|) →
      s.bearing_capacity.1 =
        (((s.self_weight + s.static_load) /
          ((s.length - 2 * |s.load_eccentricity.1|) *
            (s.width - 2 * |s.load_eccentricity.2|)) : ℚ) : WithTop ℚ)) ∧
    (s.bearing_capacity.2.2 ↔
      s.bearing_capacity.1 ≤
        ((s.soil_bearing_capacity : ℚ) : WithTop ℚ)) ∧
    ((s.length - 2 * |s.load_eccentricity.1|) *
        (s.width - 2 * |s.load_eccentricity.2|) ≤ 0 →
      s.bearing_capacity.1 = ⊤ ∧ ¬ s.bearing_capacity.2.2) := by
  refine ⟨?_, Iff.rfl, ?_⟩
  · intro h
    simp only [StaticAnalysis.bearing_capacity]
    rw [if_pos h]
  · intro h
    have htop : s.bearing_capacity.1 = ⊤ := by
      simp only [StaticAnalysis.bearing_capacity]
      rw [if_neg (not_lt.mpr h)]
    refine ⟨htop, ?_⟩
    show ¬ (s.bearing_capacity.1 ≤
      ((s.soil_bearing_capacity : ℚ) : WithTop ℚ))
    rw [htop]
    exact WithTop.not_top_le_coe _

/-- Witness for C4: the spec example (zero eccentricity, pressure
650/6 kPa, safe) and a variant with eccentricity 2 m whose effective
area is negative (pressure reported infinite, unsafe). -/
theorem bearing_capacity_spec_witness :
    exampleStatic.bearing_capacity.1 = (((325 / 3 : ℚ)) : WithTop ℚ) ∧
    exampleStatic.bearing_capacity.2.2 ∧
    (StaticAnalysis.init 3 2 1 0.5 30 30000 200 500 (2, 0)
      0.45).bearing_capacity.1 = ⊤ ∧
    ¬ (StaticAnalysis.init 3 2 1 0.5 30 30000 200 500 (2, 0)
      0.45).bearing_capacity.2.2 := by
  have hp : exampleStatic.bearing_capacity.1 =
      (((325 / 3 : ℚ)) : WithTop ℚ) := by
    rw [(bearing_capacity_spec exampleStatic).1
      (by norm_num [exampleStatic, StaticAnalysis.init])]
    norm_num [exampleStatic, StaticAnalysis.init, StaticAnalysis.self_weight,
      StaticAnalysis.calculate_self_weight, concrete_density, soil_density]
  have hdeg := (bearing_capacity_spec
      (StaticAnalysis.init 3 2 1 0.5 30 30000 200 500 (2, 0) 0.45)).2.2
    (by norm_num [StaticAnalysis.init])
  refine ⟨hp, ?_, hdeg.1, hdeg.2⟩
  rw [(bearing_capacity_spec exampleStatic).2.1, hp]
  exact WithTop.coe_le_coe.mpr (by norm_num [exampleStatic,
    StaticAnalysis.init])

/-- C5: for every DynamicAnalysis instance, the spring constant is
`soil_coefficient * length * width` and the natural frequency is
`sqrt(k/m) / (2π)` with no further unit conversion; on the spec
example (soil coefficient 80000, length 3, width 2, total mass
40000 kg) the spring constant is 480000 kN/m and the natural frequency
is `sqrt(480000/40000) / (2π)`, which lies between 0.551 and 0.5514 Hz
(approximately 0.5513 Hz). -/
theorem spring_natural_frequency_spec (d : DynamicAnalysis) :
    d.spring_constant = d.soil_coefficient * d.length * d.width ∧
    d.natural_frequency =
      Real.sqrt (d.spring_constant / d.total_mass) / (2 * Real.pi) ∧
    exampleDynamic.spring_constant = 480000 ∧
    exampleDynamic.natural_frequency =
      Real.sqrt ((480000 : ℝ) / 40000) / (2 * Real.pi) ∧
    0.551 < exampleDynamic.natural_frequency ∧
    exampleDynamic.natural_frequency < 0.5514 := by
  have hnf : exampleDynamic.natural_frequency =
      Real.sqrt 12 / (2 * Real.pi) := by
    norm_num [exampleDynamic, DynamicAnalysis.init,
      DynamicAnalysis.natural_frequency,
      DynamicAnalysis.calculate_natural_frequency,
      DynamicAnalysis.spring_constant,
      DynamicAnalysis.calculate_spring_constant]
  have hs1 : (3.464 : ℝ) < Real.sqrt 12 :=
    (Real.lt_sqrt (by norm_num)).mpr (by norm_num)
  have hs2 : Real.sqrt 12 < 3.4642 :=
    (Real.sqrt_lt' (by norm_num)).mpr (by norm_num)
  have hpi1 := Real.pi_gt_d6
  have hpi2 := Real.pi_lt_d6
  have hpos : (0 : ℝ) < 2 * Real.pi := by positivity
  refine ⟨by simp only [DynamicAnalysis.spring_constant,
      DynamicAnalysis.calculate_spring_constant]; ring, rfl,
    by norm_num [exampleDynamic, DynamicAnalysis.init,
      DynamicAnalysis.spring_constant,
      DynamicAnalysis.calculate_spring_constant],
    by norm_num [exampleDynamic, DynamicAnalysis.init,
      DynamicAnalysis.natural_frequency,
      DynamicAnalysis.calculate_natural_frequency,
      DynamicAnalysis.spring_constant,
      DynamicAnalysis.calculate_spring_constant], ?_, ?_⟩
  · rw [hnf]
    rw [lt_div_iff₀ hpos]
    nlinarith [hs1, hpi2]
  · rw [hnf]
    rw [div_lt_iff₀ hpos]
    nlinarith [hs2, hpi1]

/-- C6: for every DynamicAnalysis instance, the resonance-risk flag
holds exactly when the frequency ratio (the quotient of the excitation
frequency by the natural frequency, `⊤` when the natural frequency is
zero) lies in the band `[0.8, 1.2]`, and the outcome does not depend
on the damping ratio: two instances differing only in that argument
report the same resonance risk. -/
theorem resonance_risk_spec (d : DynamicAnalysis)
    (L W H Dp cs em soil F0 f m zeta zeta' : ℝ) :
    (d.is_resonance_risk.1 ↔
      ((0.8 : ℝ) : EReal) ≤ d.calculate_frequency_ratio ∧
        d.calculate_frequency_ratio ≤ ((1.2 : ℝ) : EReal)) ∧
    (0 < d.natural_frequency →
      d.calculate_frequency_ratio =
        ((d.frequency / d.natural_frequency : ℝ) : EReal)) ∧
    (d.natural_frequency = 0 → d.calculate_frequency_ratio = ⊤) ∧
    ((DynamicAnalysis.init L W H Dp cs em soil F0 f m
        zeta).is_resonance_risk.1 ↔
      (DynamicAnalysis.init L W H Dp cs em soil F0 f m
        zeta').is_resonance_risk.1) := by
  refine ⟨Iff.rfl, ?_, ?_, Iff.rfl⟩
  · intro h
    simp only [DynamicAnalysis.calculate_frequency_ratio]
    rw [if_pos h]
  · intro h
    simp only [DynamicAnalysis.calculate_frequency_ratio]
    rw [if_neg (by rw [h]; exact lt_irrefl 0)]

/-- Witness for C6: an instance with soil coefficient 0 has natural
frequency 0, so its frequency ratio is reported as infinite; on the
spec example the natural frequency is positive and the ratio is the
finite quotient. -/
theorem resonance_risk_spec_witness :
    (DynamicAnalysis.init 1 1 1 0 30 30000 0 50 10 1
      0.05).calculate_frequency_ratio = ⊤ ∧
    exampleDynamic.calculate_frequency_ratio =
      ((exampleDynamic.frequency / exampleDynamic.natural_frequency : ℝ) :
        EReal) := by
  constructor
  · exact (resonance_risk_spec
      (DynamicAnalysis.init 1 1 1 0 30 30000 0 50 10 1 0.05)
      1 1 1 0 30 30000 0 50 10 1 0.05 0.05).2.2.1
      (by norm_num [DynamicAnalysis.init, DynamicAnalysis.natural_frequency,
        DynamicAnalysis.calculate_natural_frequency,
        DynamicAnalysis.spring_constant,
        DynamicAnalysis.calculate_spring_constant, Real.sqrt_zero])
  · exact (resonance_risk_spec exampleDynamic
      1 1 1 0 30 30000 0 50 10 1 0.05 0.05).2.1
      (by norm_num [exampleDynamic, DynamicAnalysis.init,
        DynamicAnalysis.natural_frequency,
        DynamicAnalysis.calculate_natural_frequency,
        DynamicAnalysis.spring_constant,
        DynamicAnalysis.calculate_spring_constant, Real.pi_pos,
        Real.sqrt_pos])

/-- C7 counterexample: the response-curve sweep does mutate the
analysis object's configured excitation frequency transiently: on the
spec example with frequency range (1, 2), the state after the first
sweep assignment carries frequency 1, not the configured 10, so it is
not the case that every intermediate sweep state keeps the original
frequency. -/
theorem response_curve_transient_mutation :
    ¬ (∀ s ∈ exampleDynamic.response_curve_states (some (1, 2)),
        s.frequency = exampleDynamic.frequency) := by
  intro hAll
  have hdom : exampleDynamic.response_domain (some (1, 2)) =
      ((1 : ℝ) + (2 - 1) * ((0 : ℕ) : ℝ) / ((999 : ℕ) : ℝ)) ::
        (((List.range 999).map Nat.succ).map (fun i =>
          (1 : ℝ) + (2 - 1) * (i : ℝ) / ((999 : ℕ) : ℝ))) := by
    simp only [DynamicAnalysis.response_domain, linspace]
    rw [show (1000 : ℕ) = 999 + 1 from rfl, List.range_succ_eq_map]
    simp
  have hmem : ({ exampleDynamic with frequency :=
      (1 : ℝ) + (2 - 1) * ((0 : ℕ) : ℝ) / ((999 : ℕ) : ℝ) } :
        DynamicAnalysis) ∈
      exampleDynamic.response_curve_states (some (1, 2)) := by
    rw [DynamicAnalysis.response_curve_states, hdom]
    exact List.mem_cons_self _ _
  have h1 := hAll _ hmem
  simp only [exampleDynamic, DynamicAnalysis.init] at h1
  norm_num at h1

/-- C7 (amended): the response-curve sweep transiently reassigns the
analysis object's excitation frequency, but it restores it on
completion: the returned object equals the input object — and the
returned curve is a pure function of the instance parameters and the
frequency domain: the amplitude at each sampled frequency is that of
the instance with only its frequency replaced by the sample. -/
theorem response_curve_restores_and_pure (d : DynamicAnalysis)
    (freq_range : Option (ℝ × ℝ)) :
    (d.calculate_response_curve freq_range).1 = d ∧
    (d.calculate_response_curve freq_range).2 =
      (d.response_domain freq_range,
        (d.response_domain freq_range).map (fun f =>
          DynamicAnalysis.calculate_amplitude
            { d with frequency := f })) :=
  ⟨response_curve_fst d freq_range, response_curve_snd d freq_range⟩

/-- C8: calling the response-curve sweep twice with identical inputs
yields identical (frequencies, amplitudes) sequences, and after each
call the instance's excitation frequency equals its value before the
call — no hidden state is carried between calls. -/
theorem response_curve_idempotent (d : DynamicAnalysis)
    (freq_range : Option (ℝ × ℝ)) :
    (((d.calculate_response_curve freq_range).1.calculate_response_curve
        freq_range).2 =
      (d.calculate_response_curve freq_range).2) ∧
    (d.calculate_response_curve freq_range).1.frequency = d.frequency ∧
    ((d.calculate_response_curve freq_range).1.calculate_response_curve
        freq_range).1.frequency =
      (d.calculate_response_curve freq_range).1.frequency := by
  rw [response_curve_fst d freq_range]
  exact ⟨rfl, rfl, rfl⟩

/-- C9: the material properties are purely descriptive — two input
sets differing only in concrete strength and/or elastic modulus give
identical computed outputs for both calculators: the full static
result record (self-weight, the three checks, overall safety), the
spring constant, the full dynamic result record (natural frequency,
frequency ratio, transmissibility, amplitude, resonance risk, safety),
and the response curve for every frequency range. -/
theorem material_properties_descriptive
    (L W H D cap load : ℚ) (ecc : ℚ × ℚ) (mu cs cs' em em' : ℚ)
    (L2 W2 H2 D2 soil F0 f m zeta cs2 cs2' em2 em2' : ℝ) :
    (StaticAnalysis.init L W H D cs em cap load ecc mu).run_analysis =
      (StaticAnalysis.init L W H D cs' em' cap load ecc mu).run_analysis ∧
    (DynamicAnalysis.init L2 W2 H2 D2 cs2 em2 soil F0 f m
        zeta).spring_constant =
      (DynamicAnalysis.init L2 W2 H2 D2 cs2' em2' soil F0 f m
        zeta).spring_constant ∧
    (DynamicAnalysis.init L2 W2 H2 D2 cs2 em2 soil F0 f m
        zeta).run_analysis =
      (DynamicAnalysis.init L2 W2 H2 D2 cs2' em2' soil F0 f m
        zeta).run_analysis ∧
    ∀ freq_range,
      ((DynamicAnalysis.init L2 W2 H2 D2 cs2 em2 soil F0 f m
          zeta).calculate_response_curve freq_range).2 =
        ((DynamicAnalysis.init L2 W2 H2 D2 cs2' em2' soil F0 f m
          zeta).calculate_response_curve freq_range).2 := by
  refine ⟨rfl, rfl, rfl, fun freq_range => ?_⟩
  rw [response_curve_snd, response_curve_snd]
  exact congrArg₂ Prod.mk rfl (List.map_congr_left (fun x _ => rfl))

set_option maxRecDepth 100000 in
/-- C10: saving the 19-field reference default parameter record with
`save_parameters` (which appends the missing `.json` extension) and
loading the resulting file back with `load_parameters` yields a record
equal to the original: the same keys with unchanged values. -/
theorem parameters_roundtrip :
    (get_default_parameters ("2026-10-12")).length = 19 ∧
    load_parameters ("params.json")
      (save_parameters (get_default_parameters ("2026-10-12"))
        ("params") []).2 =
      some (get_default_parameters ("2026-10-12")) := by
  constructor
  · decide
  · decide
